import Mathlib

/-!
Shallow embedding of src/src/lock.c.

The C file defines a two-field result struct, a single code template
expanded at two fcntl commands (F_SETLK and F_SETLKW) to produce the
functions c_lock and c_lock_wait, and a function c_unlock that closes
the given descriptor. The OS is modelled by an oracle assigning every
open, fcntl and close call a pair of a return value and an errno value;
each embedded function returns the C result together with the list of
syscalls it issued, in order, so that statements about which OS calls
are or are not performed can be made.
-/

namespace FileLock

/-- Value of the fcntl.h flag O_WRONLY on Linux. -/
def O_WRONLY : Nat := 1

/-- Value of the fcntl.h flag O_CREAT on Linux. -/
def O_CREAT : Nat := 64

/-- Owner-read permission bit (octal 0400). -/
def S_IRUSR : Nat := 256

/-- Owner-write permission bit (octal 0200). -/
def S_IWUSR : Nat := 128

/-- Group-read permission bit (octal 0040). -/
def S_IRGRP : Nat := 32

/-- Other-read permission bit (octal 0004). -/
def S_IROTH : Nat := 4

/-- Non-blocking set-lock fcntl command (Linux value). -/
def F_SETLK : Nat := 6

/-- Blocking set-lock fcntl command (Linux value). -/
def F_SETLKW : Nat := 7

/-- Shared (read) lock type (Linux value). -/
def F_RDLCK : Int := 0

/-- Exclusive (write) lock type (Linux value). -/
def F_WRLCK : Int := 1

/-- Unlock lock type (Linux value). -/
def F_UNLCK : Int := 2

/-- Seek origin constant: offsets are measured from the start of the file. -/
def SEEK_SET : Int := 0

/-- Errno for a resource temporarily unavailable (Linux value). -/
def EAGAIN : Int := 11

/-- Errno for a bad file descriptor (Linux value). -/
def EBADF : Int := 9

/-- The open flags used by the lock template: `O_WRONLY | O_CREAT`. -/
def openFlags : Nat := O_WRONLY ||| O_CREAT

/-- The creation mode used by the lock template:
`S_IRUSR | S_IWUSR | S_IRGRP | S_IROTH`. -/
def createMode : Nat := S_IRUSR ||| S_IWUSR ||| S_IRGRP ||| S_IROTH

/-- The C struct result: a descriptor field and an error (errno) field. -/
structure result where
  fd : Int
  error : Int
deriving DecidableEq, Repr

/-- The fields of struct flock that lock.c assigns (l_type, l_whence,
l_start, l_len); the remaining C fields are never read or written by the
code and are not modelled. -/
structure Flock where
  l_type : Int
  l_whence : Int
  l_start : Int
  l_len : Int
deriving DecidableEq, Repr

/-- An OS call issued by the code, with the arguments the code passes. -/
inductive Syscall where
  | openCall (pathname : String) (flags : Nat) (mode : Nat)
  | fcntlCall (fd : Int) (cmd : Nat) (fl : Flock)
  | closeCall (fd : Int)
deriving DecidableEq, Repr

/-- OS oracle: the outcome (return value, errno after the call) of each
syscall the code can issue. -/
structure OS where
  openRes : String → Nat → Nat → Int × Int
  fcntlRes : Int → Nat → Flock → Int × Int
  closeRes : Int → Int × Int

/-- The struct flock built by the lock template: l_type = F_WRLCK,
l_whence = SEEK_SET, l_start = 0, l_len = 0. -/
def wholeFileWriteLock : Flock := ⟨F_WRLCK, SEEK_SET, 0, 0⟩

/-- The body of the C lock template, parameterised by the fcntl command,
exactly as the template text reads: open the path with openFlags and
createMode; on open failure return fd = -1 and error = errno; otherwise
issue fcntl with the whole-file write-lock request; on fcntl failure
record fd = -1 and error = errno, close the opened descriptor and
return; on success return the opened descriptor and error = 0. -/
def lockGeneral (cmd : Nat) (os : OS) (pathname : String) : result × List Syscall :=
  let o := os.openRes pathname openFlags createMode
  let fd := o.1
  if fd = -1 then
    (⟨-1, o.2⟩, [Syscall.openCall pathname openFlags createMode])
  else
    let f := os.fcntlRes fd cmd wholeFileWriteLock
    if f.1 = -1 then
      (⟨-1, f.2⟩,
        [Syscall.openCall pathname openFlags createMode,
         Syscall.fcntlCall fd cmd wholeFileWriteLock,
         Syscall.closeCall fd])
    else
      (⟨fd, 0⟩,
        [Syscall.openCall pathname openFlags createMode,
         Syscall.fcntlCall fd cmd wholeFileWriteLock])

/-- Expansion of the C lock template at the non-blocking command F_SETLK,
written out in full as the C preprocessor produces it. -/
def c_lock (os : OS) (pathname : String) : result × List Syscall :=
  let o := os.openRes pathname openFlags createMode
  let fd := o.1
  if fd = -1 then
    (⟨-1, o.2⟩, [Syscall.openCall pathname openFlags createMode])
  else
    let f := os.fcntlRes fd F_SETLK wholeFileWriteLock
    if f.1 = -1 then
      (⟨-1, f.2⟩,
        [Syscall.openCall pathname openFlags createMode,
         Syscall.fcntlCall fd F_SETLK wholeFileWriteLock,
         Syscall.closeCall fd])
    else
      (⟨fd, 0⟩,
        [Syscall.openCall pathname openFlags createMode,
         Syscall.fcntlCall fd F_SETLK wholeFileWriteLock])

/-- Expansion of the C lock template at the blocking command F_SETLKW,
written out in full as the C preprocessor produces it. -/
def c_lock_wait (os : OS) (pathname : String) : result × List Syscall :=
  let o := os.openRes pathname openFlags createMode
  let fd := o.1
  if fd = -1 then
    (⟨-1, o.2⟩, [Syscall.openCall pathname openFlags createMode])
  else
    let f := os.fcntlRes fd F_SETLKW wholeFileWriteLock
    if f.1 = -1 then
      (⟨-1, f.2⟩,
        [Syscall.openCall pathname openFlags createMode,
         Syscall.fcntlCall fd F_SETLKW wholeFileWriteLock,
         Syscall.closeCall fd])
    else
      (⟨fd, 0⟩,
        [Syscall.openCall pathname openFlags createMode,
         Syscall.fcntlCall fd F_SETLKW wholeFileWriteLock])

/-- The C function c_unlock: close the descriptor; on close failure
return fd = -1 and error = errno; on success return fd = -1, error = 0. -/
def c_unlock (os : OS) (fd : Int) : result × List Syscall :=
  let c := os.closeRes fd
  if c.1 = -1 then
    (⟨-1, c.2⟩, [Syscall.closeCall fd])
  else
    (⟨-1, 0⟩, [Syscall.closeCall fd])

/-- True exactly when the trace contains an fcntl (lock facility) call. -/
def hasFcntl (tr : List Syscall) : Bool :=
  tr.any fun s =>
    match s with
    | Syscall.fcntlCall _ _ _ => true
    | _ => false

/-- True exactly when the trace contains a close call. -/
def hasClose (tr : List Syscall) : Bool :=
  tr.any fun s =>
    match s with
    | Syscall.closeCall _ => true
    | _ => false

/-- Holds of a syscall unless it is an fcntl call whose flock argument
differs from the whole-file write-lock request. -/
def fcntlWholeFileWrite (s : Syscall) : Bool :=
  match s with
  | Syscall.fcntlCall _ _ fl => fl == wholeFileWriteLock
  | _ => true

/-- Holds of a syscall unless it is an fcntl call whose command differs
from the non-blocking command F_SETLK. -/
def fcntlNonBlocking (s : Syscall) : Bool :=
  match s with
  | Syscall.fcntlCall _ cmd _ => cmd == F_SETLK
  | _ => true

/-- Modelled from the spec: the error-kind classification
(InvalidDescriptor, WouldBlock, OsError) lives in the wrapper around
lock.c, which is not under src/; per the spec the OS "resource
temporarily unavailable" code maps to WouldBlock and any other platform
code to OsError. -/
inductive LockErrorKind where
  | InvalidDescriptor
  | WouldBlock
  | OsError (code : Int)
deriving DecidableEq, Repr

/-- Modelled from the spec: map a raw platform error code to its
wrapper-level kind: EAGAIN becomes WouldBlock, anything else OsError. -/
def errnoKind (e : Int) : LockErrorKind :=
  if e = EAGAIN then LockErrorKind.WouldBlock else LockErrorKind.OsError e

/-- Concrete oracle: every call succeeds; open returns descriptor 3. -/
def osAllOk : OS :=
  ⟨fun _ _ _ => (3, 0), fun _ _ _ => (0, 0), fun _ => (0, 0)⟩

/-- Concrete oracle: close fails with EBADF; open and fcntl succeed. -/
def osCloseFail : OS :=
  ⟨fun _ _ _ => (3, 0), fun _ _ _ => (0, 0), fun _ => (-1, 9)⟩

/-- Concrete oracle: open fails with EACCES (13). -/
def osOpenFail : OS :=
  ⟨fun _ _ _ => (-1, 13), fun _ _ _ => (0, 0), fun _ => (0, 0)⟩

/-- Concrete oracle: open succeeds with descriptor 3, fcntl fails with
EAGAIN (the lock is held incompatibly), close succeeds. -/
def osLockBusy : OS :=
  ⟨fun _ _ _ => (3, 0), fun _ _ _ => (-1, 11), fun _ => (0, 0)⟩

/-- Concrete oracle: open succeeds with descriptor 3, fcntl fails with
EIO (5), close succeeds. -/
def osFcntlFail : OS :=
  ⟨fun _ _ _ => (3, 0), fun _ _ _ => (-1, 5), fun _ => (0, 0)⟩

/-- Unfolding lemma: c_lock is the template body at command F_SETLK. -/
theorem c_lock_eq (os : OS) (pathname : String) :
    c_lock os pathname = lockGeneral F_SETLK os pathname := rfl

/-- Unfolding lemma: c_lock_wait is the template body at F_SETLKW. -/
theorem c_lock_wait_eq (os : OS) (pathname : String) :
    c_lock_wait os pathname = lockGeneral F_SETLKW os pathname := rfl

/-- Behaviour of the template body when open fails. -/
theorem lockGeneral_open_fail (cmd : Nat) (os : OS) (pathname : String) (e : Int)
    (hopen : os.openRes pathname openFlags createMode = (-1, e)) :
    lockGeneral cmd os pathname =
      (⟨-1, e⟩, [Syscall.openCall pathname openFlags createMode]) := by
  simp [lockGeneral, hopen]

/-- Behaviour of the template body when open succeeds and fcntl fails. -/
theorem lockGeneral_fcntl_fail (cmd : Nat) (os : OS) (pathname : String)
    (fdo e1 e2 : Int)
    (hopen : os.openRes pathname openFlags createMode = (fdo, e1))
    (hfd : fdo ≠ -1)
    (hf : os.fcntlRes fdo cmd wholeFileWriteLock = (-1, e2)) :
    lockGeneral cmd os pathname =
      (⟨-1, e2⟩,
        [Syscall.openCall pathname openFlags createMode,
         Syscall.fcntlCall fdo cmd wholeFileWriteLock,
         Syscall.closeCall fdo]) := by
  simp [lockGeneral, hopen, hfd, hf]

/-- Behaviour of the template body when open and fcntl both succeed. -/
theorem lockGeneral_success (cmd : Nat) (os : OS) (pathname : String)
    (fdo e1 r e2 : Int)
    (hopen : os.openRes pathname openFlags createMode = (fdo, e1))
    (hfd : fdo ≠ -1)
    (hf : os.fcntlRes fdo cmd wholeFileWriteLock = (r, e2))
    (hr : r ≠ -1) :
    lockGeneral cmd os pathname =
      (⟨fdo, 0⟩,
        [Syscall.openCall pathname openFlags createMode,
         Syscall.fcntlCall fdo cmd wholeFileWriteLock]) := by
  simp [lockGeneral, hopen, hfd, hf, hr]

/-- Every fcntl call in a template trace carries the whole-file
write-lock request. -/
theorem lockGeneral_trace_whole_file (cmd : Nat) (os : OS) (pathname : String) :
    (lockGeneral cmd os pathname).2.all fcntlWholeFileWrite = true := by
  unfold lockGeneral
  by_cases h1 : (os.openRes pathname openFlags createMode).1 = -1
  · simp [h1, fcntlWholeFileWrite]
  · by_cases h2 : (os.fcntlRes (os.openRes pathname openFlags createMode).1 cmd
        wholeFileWriteLock).1 = -1 <;>
      simp [h1, h2, fcntlWholeFileWrite]

/-- The first syscall of a template trace is always the open of the
pathname with the fixed flags and creation mode. -/
theorem lockGeneral_trace_head (cmd : Nat) (os : OS) (pathname : String) :
    (lockGeneral cmd os pathname).2.head? =
      some (Syscall.openCall pathname openFlags createMode) := by
  unfold lockGeneral
  by_cases h1 : (os.openRes pathname openFlags createMode).1 = -1
  · simp [h1]
  · by_cases h2 : (os.fcntlRes (os.openRes pathname openFlags createMode).1 cmd
        wholeFileWriteLock).1 = -1 <;>
      simp [h1, h2]

/-- Result invariant of the template body: under the POSIX contract of
the calls involved, a nonzero error field comes with fd = -1, and a zero
error field carries the non-negative descriptor of the successful open. -/
theorem lockGeneral_result_invariant (cmd : Nat) (os : OS) (pathname : String)
    (hopen_nonneg : (os.openRes pathname openFlags createMode).1 = -1 ∨
      0 ≤ (os.openRes pathname openFlags createMode).1)
    (hopen_err : (os.openRes pathname openFlags createMode).1 = -1 →
      (os.openRes pathname openFlags createMode).2 ≠ 0)
    (hfcntl_err : ∀ fl : Flock,
      (os.fcntlRes (os.openRes pathname openFlags createMode).1 cmd fl).1 = -1 →
      (os.fcntlRes (os.openRes pathname openFlags createMode).1 cmd fl).2 ≠ 0) :
    ((lockGeneral cmd os pathname).1.error ≠ 0 →
      (lockGeneral cmd os pathname).1.fd = -1) ∧
    ((lockGeneral cmd os pathname).1.error = 0 →
      (lockGeneral cmd os pathname).1.fd =
        (os.openRes pathname openFlags createMode).1 ∧
      0 ≤ (lockGeneral cmd os pathname).1.fd) := by
  by_cases h1 : (os.openRes pathname openFlags createMode).1 = -1
  · have he := hopen_err h1
    simp [lockGeneral, h1, he]
  · rcases hopen_nonneg with h | hge
    · exact absurd h h1
    by_cases h2 : (os.fcntlRes (os.openRes pathname openFlags createMode).1 cmd
        wholeFileWriteLock).1 = -1
    · have he := hfcntl_err wholeFileWriteLock h2
      simp [lockGeneral, h1, h2, he]
    · simp [lockGeneral, h1, h2, hge]

/-- C9: c_lock and c_lock_wait are the two expansions of the one lock
template, differing only in the fcntl command (non-blocking F_SETLK
versus blocking F_SETLKW); open flags, creation mode, lock-request
shape, result construction and error handling coincide with the general
form at the respective command, and the two commands are distinct. -/
theorem lock_variants_are_template_instances (os : OS) (pathname : String) :
    c_lock os pathname = lockGeneral F_SETLK os pathname ∧
    c_lock_wait os pathname = lockGeneral F_SETLKW os pathname ∧
    F_SETLK ≠ F_SETLKW := by
  refine ⟨rfl, rfl, by decide⟩

/-- C1 counterexample: the claim says that for a negative descriptor
c_unlock returns InvalidDescriptor without performing any OS call and in
particular without a close. At fd = -1, under an oracle in which close
fails with EBADF, c_unlock does issue the close call (its trace is
nonempty and consists of that close) and returns the errno reported by
the OS, not a pre-syscall InvalidDescriptor. -/
theorem c_unlock_neg_calls_close :
    (c_unlock osCloseFail (-1)).2 = [Syscall.closeCall (-1)] ∧
    (c_unlock osCloseFail (-1)).2 ≠ [] ∧
    (c_unlock osCloseFail (-1)).1 = ⟨-1, EBADF⟩ := by
  decide

/-- C1 amended: c_unlock performs no validity check on the descriptor;
for every negative fd it issues exactly one OS call, a close of that
descriptor, and no lock syscall, and when that close fails it returns
fd = -1 with error = the errno reported by the close (EBADF for an
invalid descriptor), not a locally generated InvalidDescriptor. -/
theorem c_unlock_neg_fd (os : OS) (fd : Int) (hneg : fd < 0)
    (hclose : (os.closeRes fd).1 = -1) :
    (c_unlock os fd).2 = [Syscall.closeCall fd] ∧
    hasFcntl (c_unlock os fd).2 = false ∧
    (c_unlock os fd).1 = ⟨-1, (os.closeRes fd).2⟩ := by
  simp [c_unlock, hclose, hasFcntl]

/-- C1 witness: the amended statement instantiated at the EBADF oracle
and descriptor -1. -/
theorem c_unlock_neg_fd_witness :
    (c_unlock osCloseFail (-1)).2 = [Syscall.closeCall (-1)] ∧
    hasFcntl (c_unlock osCloseFail (-1)).2 = false ∧
    (c_unlock osCloseFail (-1)).1 = ⟨-1, (osCloseFail.closeRes (-1)).2⟩ :=
  c_unlock_neg_fd osCloseFail (-1) (by decide) (by decide)

/-- C4 counterexample: the claim says c_unlock submits an unlock request
through the non-blocking lock-set primitive. Under the all-succeeding
oracle at descriptor 5, the trace of c_unlock contains no fcntl call at
all: its only OS call is the close. -/
theorem c_unlock_no_fcntl_at_five :
    hasFcntl (c_unlock osAllOk 5).2 = false ∧
    (c_unlock osAllOk 5).2 = [Syscall.closeCall 5] := by
  decide

/-- C4 amended: c_unlock submits no unlock request to the lock facility
at all; its only OS call is a close of the descriptor, which is what
releases the lock, so it never invokes the lock-set primitive and never
blocks on it. -/
theorem c_unlock_closes_instead_of_unlocking (os : OS) (fd : Int) :
    (c_unlock os fd).2 = [Syscall.closeCall fd] ∧
    hasFcntl (c_unlock os fd).2 = false := by
  unfold c_unlock
  by_cases h : (os.closeRes fd).1 = -1 <;> simp [h, hasFcntl]

/-- C7: c_unlock releases solely by closing the descriptor: its trace is
the single close call and holds no fcntl; the returned fd is -1 in every
case, the error is the errno of the close when the close fails, and 0
when the close succeeds. -/
theorem c_unlock_close_only (os : OS) (fd r e : Int)
    (hclose : os.closeRes fd = (r, e)) :
    (c_unlock os fd).2 = [Syscall.closeCall fd] ∧
    hasFcntl (c_unlock os fd).2 = false ∧
    (c_unlock os fd).1.fd = -1 ∧
    (r = -1 → (c_unlock os fd).1 = ⟨-1, e⟩) ∧
    (r ≠ -1 → (c_unlock os fd).1 = ⟨-1, 0⟩) := by
  unfold c_unlock
  rw [hclose]
  by_cases hr : r = -1 <;> simp [hr, hasFcntl]

/-- C7 witness: the statement instantiated at the all-succeeding oracle
and descriptor 4, where close returns (0, 0). -/
theorem c_unlock_close_only_witness :
    (c_unlock osAllOk 4).2 = [Syscall.closeCall 4] ∧
    hasFcntl (c_unlock osAllOk 4).2 = false ∧
    (c_unlock osAllOk 4).1.fd = -1 ∧
    ((0 : Int) = -1 → (c_unlock osAllOk 4).1 = ⟨-1, 0⟩) ∧
    ((0 : Int) ≠ -1 → (c_unlock osAllOk 4).1 = ⟨-1, 0⟩) :=
  c_unlock_close_only osAllOk 4 0 0 rfl

/-- C2: when the open succeeds and the fcntl lock call fails, both
c_lock and c_lock_wait return fd = -1 with error = the errno of the
failed lock call, and their trace is open, fcntl, close of the newly
opened descriptor: the descriptor is closed before the function returns,
so none leaks on this failure path. -/
theorem lock_fcntl_fail_no_leak (os : OS) (pathname : String)
    (fdo e1 e2 e3 : Int)
    (hopen : os.openRes pathname openFlags createMode = (fdo, e1))
    (hfd : fdo ≠ -1)
    (hf1 : os.fcntlRes fdo F_SETLK wholeFileWriteLock = (-1, e2))
    (hf2 : os.fcntlRes fdo F_SETLKW wholeFileWriteLock = (-1, e3)) :
    c_lock os pathname =
      (⟨-1, e2⟩,
        [Syscall.openCall pathname openFlags createMode,
         Syscall.fcntlCall fdo F_SETLK wholeFileWriteLock,
         Syscall.closeCall fdo]) ∧
    c_lock_wait os pathname =
      (⟨-1, e3⟩,
        [Syscall.openCall pathname openFlags createMode,
         Syscall.fcntlCall fdo F_SETLKW wholeFileWriteLock,
         Syscall.closeCall fdo]) := by
  rw [c_lock_eq, c_lock_wait_eq]
  exact ⟨lockGeneral_fcntl_fail F_SETLK os pathname fdo e1 e2 hopen hfd hf1,
         lockGeneral_fcntl_fail F_SETLKW os pathname fdo e1 e3 hopen hfd hf2⟩

/-- C2 witness: instantiated at the oracle whose open yields descriptor 3
and whose fcntl fails with EIO (5). -/
theorem lock_fcntl_fail_no_leak_witness :
    c_lock osFcntlFail "a" =
      (⟨-1, 5⟩,
        [Syscall.openCall "a" openFlags createMode,
         Syscall.fcntlCall 3 F_SETLK wholeFileWriteLock,
         Syscall.closeCall 3]) ∧
    c_lock_wait osFcntlFail "a" =
      (⟨-1, 5⟩,
        [Syscall.openCall "a" openFlags createMode,
         Syscall.fcntlCall 3 F_SETLKW wholeFileWriteLock,
         Syscall.closeCall 3]) :=
  lock_fcntl_fail_no_leak osFcntlFail "a" 3 0 5 5 rfl (by decide) rfl rfl

/-- C3: every lock request submitted by c_lock or c_lock_wait carries
the whole-file write-lock flock: l_type = F_WRLCK (an exclusive write
lock, never the shared F_RDLCK), l_whence = SEEK_SET, l_start = 0 and
l_len = 0, which covers the file to its current end and beyond. -/
theorem lock_requests_whole_file_exclusive (os : OS) (pathname : String) :
    (c_lock os pathname).2.all fcntlWholeFileWrite = true ∧
    (c_lock_wait os pathname).2.all fcntlWholeFileWrite = true ∧
    wholeFileWriteLock.l_type = F_WRLCK ∧
    wholeFileWriteLock.l_whence = SEEK_SET ∧
    wholeFileWriteLock.l_start = 0 ∧
    wholeFileWriteLock.l_len = 0 ∧
    F_WRLCK ≠ F_RDLCK := by
  rw [c_lock_eq, c_lock_wait_eq]
  exact ⟨lockGeneral_trace_whole_file F_SETLK os pathname,
         lockGeneral_trace_whole_file F_SETLKW os pathname,
         by decide, by decide, by decide, by decide, by decide⟩

/-- C5: both lock functions always open the given path, as their first
OS call, with the fixed flags O_WRONLY plus O_CREAT and the fixed
creation mode S_IRUSR plus S_IWUSR plus S_IRGRP plus S_IROTH, that is
owner read+write, group read, other read (420 decimal, 0644 octal); the
mode does not depend on the path or on any argument. -/
theorem lock_open_constant_mode (os : OS) (pathname : String) :
    (c_lock os pathname).2.head? =
      some (Syscall.openCall pathname openFlags createMode) ∧
    (c_lock_wait os pathname).2.head? =
      some (Syscall.openCall pathname openFlags createMode) ∧
    openFlags = O_WRONLY ||| O_CREAT ∧
    createMode = S_IRUSR ||| S_IWUSR ||| S_IRGRP ||| S_IROTH ∧
    createMode = 420 := by
  rw [c_lock_eq, c_lock_wait_eq]
  exact ⟨lockGeneral_trace_head F_SETLK os pathname,
         lockGeneral_trace_head F_SETLKW os pathname,
         by decide, by decide, by decide⟩

/-- C6: c_lock submits only the non-blocking command F_SETLK to the lock
facility, and when the OS reports the lock held incompatibly, that is
the fcntl fails with EAGAIN, c_lock returns fd = -1 and error = EAGAIN,
the code the wrapper classifies as WouldBlock. -/
theorem c_lock_wouldblock (os : OS) (pathname : String) (fdo e1 : Int)
    (hopen : os.openRes pathname openFlags createMode = (fdo, e1))
    (hfd : fdo ≠ -1)
    (hf : os.fcntlRes fdo F_SETLK wholeFileWriteLock = (-1, EAGAIN)) :
    (c_lock os pathname).2.all fcntlNonBlocking = true ∧
    (c_lock os pathname).1 = ⟨-1, EAGAIN⟩ ∧
    errnoKind (c_lock os pathname).1.error = LockErrorKind.WouldBlock := by
  have h := lockGeneral_fcntl_fail F_SETLK os pathname fdo e1 EAGAIN hopen hfd hf
  rw [c_lock_eq, h]
  refine ⟨by simp [fcntlNonBlocking], rfl, rfl⟩

/-- C6 witness: instantiated at the oracle whose fcntl reports EAGAIN. -/
theorem c_lock_wouldblock_witness :
    (c_lock osLockBusy "a").2.all fcntlNonBlocking = true ∧
    (c_lock osLockBusy "a").1 = ⟨-1, EAGAIN⟩ ∧
    errnoKind (c_lock osLockBusy "a").1.error = LockErrorKind.WouldBlock :=
  c_lock_wouldblock osLockBusy "a" 3 0 rfl (by decide) rfl

/-- C8: when the open fails, both lock functions return immediately with
fd = -1 and error = the errno of the open; their trace is the single
open call, so no fcntl lock call is attempted and no close is issued. -/
theorem lock_open_fail_immediate (os : OS) (pathname : String) (e : Int)
    (hopen : os.openRes pathname openFlags createMode = (-1, e)) :
    c_lock os pathname =
      (⟨-1, e⟩, [Syscall.openCall pathname openFlags createMode]) ∧
    c_lock_wait os pathname =
      (⟨-1, e⟩, [Syscall.openCall pathname openFlags createMode]) ∧
    hasFcntl (c_lock os pathname).2 = false ∧
    hasClose (c_lock os pathname).2 = false ∧
    hasFcntl (c_lock_wait os pathname).2 = false ∧
    hasClose (c_lock_wait os pathname).2 = false := by
  have h1 := lockGeneral_open_fail F_SETLK os pathname e hopen
  have h2 := lockGeneral_open_fail F_SETLKW os pathname e hopen
  rw [c_lock_eq, c_lock_wait_eq, h1, h2]
  simp [hasFcntl, hasClose]

/-- C8 witness: instantiated at the oracle whose open fails with
EACCES (13). -/
theorem lock_open_fail_immediate_witness :
    c_lock osOpenFail "a" =
      (⟨-1, 13⟩, [Syscall.openCall "a" openFlags createMode]) ∧
    c_lock_wait osOpenFail "a" =
      (⟨-1, 13⟩, [Syscall.openCall "a" openFlags createMode]) ∧
    hasFcntl (c_lock osOpenFail "a").2 = false ∧
    hasClose (c_lock osOpenFail "a").2 = false ∧
    hasFcntl (c_lock_wait osOpenFail "a").2 = false ∧
    hasClose (c_lock_wait osOpenFail "a").2 = false :=
  lock_open_fail_immediate osOpenFail "a" 13 rfl

/-- C10: under the POSIX contract of the calls involved (a failing open
or fcntl reports a nonzero errno; a successful open returns a
non-negative descriptor), every result of c_lock, c_lock_wait or
c_unlock with a nonzero error field has fd = -1, and every result of
c_lock or c_lock_wait with a zero error field carries exactly the
non-negative descriptor returned by the successful open. -/
theorem result_field_invariant (os : OS) (pathname : String) (fd : Int)
    (hopen_nonneg : (os.openRes pathname openFlags createMode).1 = -1 ∨
      0 ≤ (os.openRes pathname openFlags createMode).1)
    (hopen_err : (os.openRes pathname openFlags createMode).1 = -1 →
      (os.openRes pathname openFlags createMode).2 ≠ 0)
    (hfcntl_err : ∀ (cmd : Nat) (fl : Flock),
      (os.fcntlRes (os.openRes pathname openFlags createMode).1 cmd fl).1 = -1 →
      (os.fcntlRes (os.openRes pathname openFlags createMode).1 cmd fl).2 ≠ 0) :
    ((c_lock os pathname).1.error ≠ 0 → (c_lock os pathname).1.fd = -1) ∧
    ((c_lock_wait os pathname).1.error ≠ 0 →
      (c_lock_wait os pathname).1.fd = -1) ∧
    ((c_unlock os fd).1.error ≠ 0 → (c_unlock os fd).1.fd = -1) ∧
    ((c_lock os pathname).1.error = 0 →
      (c_lock os pathname).1.fd = (os.openRes pathname openFlags createMode).1 ∧
      0 ≤ (c_lock os pathname).1.fd) ∧
    ((c_lock_wait os pathname).1.error = 0 →
      (c_lock_wait os pathname).1.fd =
        (os.openRes pathname openFlags createMode).1 ∧
      0 ≤ (c_lock_wait os pathname).1.fd) := by
  have hA := lockGeneral_result_invariant F_SETLK os pathname hopen_nonneg
    hopen_err (fun fl => hfcntl_err F_SETLK fl)
  have hB := lockGeneral_result_invariant F_SETLKW os pathname hopen_nonneg
    hopen_err (fun fl => hfcntl_err F_SETLKW fl)
  have hC : (c_unlock os fd).1.fd = -1 := by
    unfold c_unlock
    by_cases h : (os.closeRes fd).1 = -1 <;> simp [h]
  rw [c_lock_eq, c_lock_wait_eq]
  exact ⟨hA.1, hB.1, fun _ => hC, hA.2, hB.2⟩

/-- C10 witness: instantiated at the all-succeeding oracle, path a and
descriptor 7. -/
theorem result_field_invariant_witness :
    ((c_lock osAllOk "a").1.error ≠ 0 → (c_lock osAllOk "a").1.fd = -1) ∧
    ((c_lock_wait osAllOk "a").1.error ≠ 0 →
      (c_lock_wait osAllOk "a").1.fd = -1) ∧
    ((c_unlock osAllOk 7).1.error ≠ 0 → (c_unlock osAllOk 7).1.fd = -1) ∧
    ((c_lock osAllOk "a").1.error = 0 →
      (c_lock osAllOk "a").1.fd = (osAllOk.openRes "a" openFlags createMode).1 ∧
      0 ≤ (c_lock osAllOk "a").1.fd) ∧
    ((c_lock_wait osAllOk "a").1.error = 0 →
      (c_lock_wait osAllOk "a").1.fd =
        (osAllOk.openRes "a" openFlags createMode).1 ∧
      0 ≤ (c_lock_wait osAllOk "a").1.fd) :=
  result_field_invariant osAllOk "a" 7 (Or.inr (by decide)) (by decide)
    (fun cmd fl h => by simp [osAllOk] at h)

end FileLock
